import Mathlib

/-
Verification of `saved_model_half_plus_two.py` (the only source file of the
repository): a script that builds the linear-regression graph y = a*x + b
with a = 0.5 and b = 2.0, wraps a tf.Example parsing step around a string
placeholder, and exports the graph twice (binary and text) as a SavedModel.

Numeric tensor values are modelled as rationals; the framework pieces the
repository does not ship (the graph executor, tf.parse_example decoding and
the saved_model constants) are modelled from the spec, marked as such in
their doc comments.
-/

namespace HalfPlusTwo

/-- Element types appearing in the script: tf.float32 and tf.string. -/
inductive DType where
  | float32
  | string_
deriving DecidableEq

/-- A tf.FixedLenFeature: shape, dtype and optional default value, as in the
feature configuration `tf.FixedLenFeature([1], dtype=tf.float32)` of the
script (which passes no default). -/
structure FixedLenFeature where
  shape : List Nat
  dtype : DType
  defaultValue : Option (List Rat)
deriving DecidableEq

/-- Kinds of graph nodes constructed by the script. `var` stands for a
tf.Variable with its construction-time initial value; the remaining kinds
name their input tensors by tensor name. -/
inductive OpKind where
  | var (initialValue : Rat)
  | placeholder (dtype : DType)
  | parseExample (input : String)
  | identity (input : String)
  | mul (lhs rhs : String)
  | add (lhs rhs : String)
  | initAllVariables
deriving DecidableEq

/-- A node of the constructed graph: its kind, its final operation name, and
whether the script passed an explicit `name=` argument for it. -/
structure OpNode where
  kind : OpKind
  name : String
  explicitName : Bool
deriving DecidableEq

/-- The tensor name of the (single-output) operation, TensorFlow style. -/
def OpNode.tensorName (op : OpNode) : String := op.name ++ ":0"

/-- The feature configuration for "x" built on the `feature_configs` line of
the script: fixed-length, one float32 value, no default. -/
def xFeature : FixedLenFeature := ⟨[1], DType.float32, none⟩

/-- The `feature_configs` dictionary of the script. -/
def feature_configs : List (String × FixedLenFeature) := [("x", xFeature)]

/-- The graph constructed inside the session, one entry per operation, in
construction order. Operations the script does not name carry TensorFlow
default names: the parse op "ParseExample", the multiply "Mul", the second
(anonymous) identity "Identity", and the initializer group "init". -/
def graphOps : List OpNode :=
  [⟨OpKind.var 0.5, "a", true⟩,
   ⟨OpKind.var 2.0, "b", true⟩,
   ⟨OpKind.placeholder DType.string_, "tf_example", true⟩,
   ⟨OpKind.parseExample "tf_example:0", "ParseExample", false⟩,
   ⟨OpKind.identity "ParseExample:0", "x", true⟩,
   ⟨OpKind.mul "a:0" "x:0", "Mul", false⟩,
   ⟨OpKind.add "Mul:0" "b:0", "y", true⟩,
   ⟨OpKind.identity "y:0", "Identity", false⟩,
   ⟨OpKind.initAllVariables, "init", false⟩]

/-- A TensorInfo of the signature: just a tensor name, as the script only
sets the `name` field of `meta_graph_pb2.TensorInfo()`. -/
structure TensorInfo where
  name : String
deriving DecidableEq

/-- A SignatureDef: input map, output map and method name, as produced by
`utils.build_signature_def(signature_inputs, signature_outputs,
"regression")`. -/
structure SignatureDef where
  inputs : List (String × TensorInfo)
  outputs : List (String × TensorInfo)
  methodName : String
deriving DecidableEq

/-- The signature the script builds: "input" names the placeholder tensor
`serialized_tf_example.name` = "tf_example:0", and "output" names the tensor
returned by the anonymous `tf.identity(y)`, whose TensorFlow default name is
"Identity", hence tensor name "Identity:0". -/
def signature_def : SignatureDef :=
  { inputs := [("input", ⟨"tf_example:0"⟩)],
    outputs := [("output", ⟨"Identity:0"⟩)],
    methodName := "regression" }

/-- Modelled from the spec: the tag constant `constants.TAG_SERVING` of the
saved_model subsystem, whose definition is not under the provided source. -/
def TAG_SERVING : String := "serve"

/-- The variable values captured at save time: every tf.Variable of the
graph holds its construction-time initial value, because the script runs
`initialize_all_variables` before saving. -/
def initializedVariables (ops : List OpNode) : List (String × Rat) :=
  ops.filterMap (fun op =>
    match op.kind with
    | OpKind.var v => some (op.name, v)
    | _ => none)

/-- The on-disk SavedModel bundle, as assembled by the builder calls of the
script: target directory, graph definition, variable checkpoint, meta-graph
tags, signature map, and the chosen encoding. -/
structure SavedModelBundle where
  exportDir : String
  graph : List OpNode
  checkpoint : List (String × Rat)
  tags : List String
  signatureDefMap : List (String × SignatureDef)
  asText : Bool
deriving DecidableEq

/-- The export function `_generate_saved_model_for_half_plus_two` of the
script, as the bundle it writes to `export_dir`: the graph above, the
initialized variables as checkpoint, the serving tag, and exactly the one
signature registered under the key "regression" in `signature_def_map`. -/
def generate_saved_model_for_half_plus_two
    (export_dir : String) (as_text : Bool) : SavedModelBundle :=
  { exportDir := export_dir,
    graph := graphOps,
    checkpoint := initializedVariables graphOps,
    tags := [TAG_SERVING],
    signatureDefMap := [("regression", signature_def)],
    asText := as_text }

/-- The two hardcoded export directories of `main`. -/
def export_dir_pb : String := "/tmp/saved_model/half_plus_two"

/-- The second hardcoded export directory of `main`. -/
def export_dir_pbtxt : String := "/tmp/saved_model/half_plus_two_pbtxt"

/-- The entry point `main(_)` of the script: it ignores its argument (the
script defines no command-line flags) and performs exactly two exports, the
first in binary form and the second with `as_text=True`. -/
def main (_argv : List String) : List SavedModelBundle :=
  [generate_saved_model_for_half_plus_two export_dir_pb false,
   generate_saved_model_for_half_plus_two export_dir_pbtxt true]

/-- A serialized tf.Example record, modelled as its feature map from feature
names to lists of float values. -/
def Record : Type := List (String × List Rat)

/-- A tensor value flowing through the graph: either a numeric tensor or the
serialized record fed to the string placeholder. -/
inductive TValue where
  | floats (vals : List Rat)
  | serialized (r : List (String × List Rat))
deriving DecidableEq

/-- Modelled from the spec: decoding of one fixed-length feature by
`tf.parse_example`, whose implementation is not under the provided source.
Per the spec it looks for the configured feature in the record; a missing
feature without a configured default, or a value list of the wrong length,
is an error rather than an output. -/
def parseFeature (key : String) (feat : FixedLenFeature) (r : Record) :
    Except String (List Rat) :=
  match List.lookup key r with
  | none =>
    match feat.defaultValue with
    | some d => Except.ok d
    | none => Except.error ("feature missing: " ++ key)
  | some vals =>
    if vals.length = feat.shape.foldl (fun acc n => acc * n) 1 then
      Except.ok vals
    else
      Except.error ("feature has wrong length: " ++ key)

/-- The evaluation environment: tensor name to computed value. -/
def TEnv : Type := List (String × TValue)

/-- Modelled from the spec: one step of the graph executor. Variables read
their checkpointed value, the placeholder reads the fed record, the parse
op decodes the feature "x" per `feature_configs`, identity copies its
input, mul and add combine numeric tensors elementwise, and the initializer
is a no-op at serving time. -/
def evalOp (ckpt : List (String × Rat)) (feeds : List (String × Record))
    (env : TEnv) (op : OpNode) : Except String TEnv :=
  match op.kind with
  | OpKind.var _ =>
    match List.lookup op.name ckpt with
    | some v => Except.ok ((op.tensorName, TValue.floats [v]) :: env)
    | none => Except.error ("variable not in checkpoint: " ++ op.name)
  | OpKind.placeholder _ =>
    match List.lookup op.tensorName feeds with
    | some r => Except.ok ((op.tensorName, TValue.serialized r) :: env)
    | none => Except.error ("placeholder not fed: " ++ op.name)
  | OpKind.parseExample input =>
    match List.lookup input env with
    | some (TValue.serialized r) =>
      (parseFeature "x" xFeature r).map
        (fun vals => (op.tensorName, TValue.floats vals) :: env)
    | _ => Except.error ("parse input missing: " ++ input)
  | OpKind.identity input =>
    match List.lookup input env with
    | some v => Except.ok ((op.tensorName, v) :: env)
    | none => Except.error ("identity input missing: " ++ input)
  | OpKind.mul lhs rhs =>
    match List.lookup lhs env, List.lookup rhs env with
    | some (TValue.floats a), some (TValue.floats b) =>
      if a.length = b.length then
        Except.ok ((op.tensorName, TValue.floats (List.zipWith (fun p q => p * q) a b)) :: env)
      else Except.error "shape mismatch in mul"
    | _, _ => Except.error "numeric input missing in mul"
  | OpKind.add lhs rhs =>
    match List.lookup lhs env, List.lookup rhs env with
    | some (TValue.floats a), some (TValue.floats b) =>
      if a.length = b.length then
        Except.ok ((op.tensorName, TValue.floats (List.zipWith (fun p q => p + q) a b)) :: env)
      else Except.error "shape mismatch in add"
    | _, _ => Except.error "numeric input missing in add"
  | OpKind.initAllVariables => Except.ok env

/-- Modelled from the spec: running the whole graph in construction order
(the list order is a topological order of the dataflow). -/
def evalGraph (ckpt : List (String × Rat)) (feeds : List (String × Record))
    (ops : List OpNode) : Except String TEnv :=
  ops.foldlM (evalOp ckpt feeds) []

/-- Modelled from the spec: loading the written bundle and executing it on a
serialized record. The record is fed to the tensor named by the signature
entry "input" and the tensor named by the signature entry "output" is read
back, as a SavedModel regression client does. -/
def serveBundle (b : SavedModelBundle) (r : Record) : Except String TValue :=
  match List.lookup "regression" b.signatureDefMap with
  | none => Except.error "signature regression not found"
  | some sig =>
    match List.lookup "input" sig.inputs, List.lookup "output" sig.outputs with
    | some ti, some tout =>
      match evalGraph b.checkpoint [(ti.name, r)] b.graph with
      | Except.ok env =>
        match List.lookup tout.name env with
        | some v => Except.ok v
        | none => Except.error "output tensor not found"
      | Except.error e => Except.error e
    | _, _ => Except.error "signature roles not found"

/-- Evaluation of a single named tensor of the script's graph on a record,
with the initialized variables as checkpoint and the record fed to the
placeholder. -/
def evalTensor (r : Record) (t : String) : Except String TValue :=
  match evalGraph (initializedVariables graphOps) [("tf_example:0", r)] graphOps with
  | Except.ok env =>
    match List.lookup t env with
    | some v => Except.ok v
    | none => Except.error "tensor not found"
  | Except.error e => Except.error e

/-- Events of one run of `_generate_saved_model_for_half_plus_two`, in
source order: builder construction, the `with tf.Session` scope, the graph
construction calls, the signature build, the one `sess.run`, and the two
builder method calls. -/
inductive Event where
  | builderCreate
  | sessionOpen
  | constructOp (name : String)
  | buildSignatureDef
  | sessionRun (target : String)
  | addMetaGraphAndVariables
  | builderSave (asText : Bool)
  | sessionClose
deriving DecidableEq

/-- The event trace of one export, read off the source line by line. The
anonymous `tf.identity(y)` is constructed while the output TensorInfo is
being filled, before `build_signature_def`; `initialize_all_variables` is
constructed and run just before the builder calls; the session scope closes
after `builder.save`. -/
def exportEvents (as_text : Bool) : List Event :=
  [Event.builderCreate,
   Event.sessionOpen,
   Event.constructOp "a",
   Event.constructOp "b",
   Event.constructOp "tf_example",
   Event.constructOp "ParseExample",
   Event.constructOp "x",
   Event.constructOp "Mul",
   Event.constructOp "y",
   Event.constructOp "Identity",
   Event.buildSignatureDef,
   Event.constructOp "init",
   Event.sessionRun "init",
   Event.addMetaGraphAndVariables,
   Event.builderSave as_text,
   Event.sessionClose]

/-- Whether an event is the session run. -/
def Event.isSessionRun : Event → Bool
  | Event.sessionRun _ => true
  | _ => false

/-- Whether an event is one of the two builder method calls the script
makes per export: `add_meta_graph_and_variables` and `save`. -/
def Event.isBuilderMethod : Event → Bool
  | Event.addMetaGraphAndVariables => true
  | Event.builderSave _ => true
  | _ => false

/-- Whether an event uses the session object `sess`: the one run and the
`add_meta_graph_and_variables` call, which takes `sess` as argument. -/
def Event.usesSession : Event → Bool
  | Event.sessionRun _ => true
  | Event.addMetaGraphAndVariables => true
  | _ => false

/-- Whether an event is a graph construction call. -/
def Event.isConstruct : Event → Bool
  | Event.constructOp _ => true
  | _ => false

/-- The framework primitives an export invokes, each of which may raise: the
script wraps none of them in any handler. -/
structure Framework (ε : Type) where
  constructGraph : Except ε Unit
  runInitialization : Except ε Unit
  addMetaGraphAndVariables : Except ε Unit
  save : Except ε Unit

/-- Labels for the framework calls an export makes. -/
inductive FwCall where
  | constructGraph
  | runInitialization
  | addMetaGraphAndVariables
  | save
deriving DecidableEq

/-- The export as a straight-line sequence of framework calls with no
handler: it returns the list of calls actually attempted together with the
outcome, stopping at the first error and passing it through unchanged. -/
def exportSteps {ε : Type} (fw : Framework ε) : List FwCall × Except ε Unit :=
  match fw.constructGraph with
  | Except.error e => ([FwCall.constructGraph], Except.error e)
  | Except.ok _ =>
    match fw.runInitialization with
    | Except.error e =>
      ([FwCall.constructGraph, FwCall.runInitialization], Except.error e)
    | Except.ok _ =>
      match fw.addMetaGraphAndVariables with
      | Except.error e =>
        ([FwCall.constructGraph, FwCall.runInitialization,
          FwCall.addMetaGraphAndVariables], Except.error e)
      | Except.ok _ =>
        match fw.save with
        | Except.error e =>
          ([FwCall.constructGraph, FwCall.runInitialization,
            FwCall.addMetaGraphAndVariables, FwCall.save], Except.error e)
        | Except.ok _ =>
          ([FwCall.constructGraph, FwCall.runInitialization,
            FwCall.addMetaGraphAndVariables, FwCall.save], Except.ok ())

/-- A concrete framework instance whose save raises, used to exercise the
error-propagation theorem. -/
def failingSaveFramework : Framework String :=
  { constructGraph := Except.ok (),
    runInitialization := Except.ok (),
    addMetaGraphAndVariables := Except.ok (),
    save := Except.error "unwritable directory" }

/-- C1: executing the exported graph on a serialized record whose feature
"x" holds the single value v yields output y = 0.5*v + 2.0, with a
initialized to 0.5 and b to 2.0. -/
theorem C1_output_fidelity (export_dir : String) (as_text : Bool) (v : Rat) :
    serveBundle (generate_saved_model_for_half_plus_two export_dir as_text)
      [("x", [v])] = Except.ok (TValue.floats [0.5 * v + 2.0]) := rfl

/-- C2: the entry point ignores its argument vector (no command-line flags)
and always performs exactly two exports to the two fixed hardcoded
directories, the first in binary and the second in text encoding. -/
theorem C2_main_two_fixed_exports (argv : List String) :
    main argv = main [] ∧
    (main argv).length = 2 ∧
    (main argv).map (fun b => (b.exportDir, b.asText)) =
      [("/tmp/saved_model/half_plus_two", false),
       ("/tmp/saved_model/half_plus_two_pbtxt", true)] :=
  ⟨rfl, rfl, rfl⟩

/-- C3: for every output directory and text/binary flag, the export function
writes to that directory a bundle holding the graph definition, the variable
checkpoint, and exactly one named signature, whose name is "regression". -/
theorem C3_export_bundle_contract (export_dir : String) (as_text : Bool) :
    (generate_saved_model_for_half_plus_two export_dir as_text).exportDir = export_dir ∧
    (generate_saved_model_for_half_plus_two export_dir as_text).graph = graphOps ∧
    (generate_saved_model_for_half_plus_two export_dir as_text).checkpoint =
      [("a", 0.5), ("b", 2.0)] ∧
    (generate_saved_model_for_half_plus_two export_dir as_text).signatureDefMap.map
      Prod.fst = ["regression"] ∧
    (generate_saved_model_for_half_plus_two export_dir as_text).asText = as_text :=
  ⟨rfl, rfl, rfl, rfl, rfl⟩

/-- C4 counterexample: the claim maps the signature role "output" to the
tensor name of the computed output named "y", which would be "y:0"; but the
signature built by the script names a different tensor there. -/
theorem C4_counterexample :
    (List.lookup "output" signature_def.outputs).map TensorInfo.name ≠
      some "y:0" := by decide

/-- C4 amended: the graph holds exactly the enumerated entities, with the
stated values, except that the signature role "output" names the anonymous
identity tensor "Identity:0" applied to y rather than the tensor "y:0". -/
theorem C4_entities_amended :
    graphOps.filterMap
      (fun op => match op.kind with
        | OpKind.var v => some (op.name, v)
        | _ => none) = [("a", 0.5), ("b", 2.0)] ∧
    graphOps.filter
      (fun op => match op.kind with
        | OpKind.placeholder _ => true
        | _ => false) = [⟨OpKind.placeholder DType.string_, "tf_example", true⟩] ∧
    feature_configs = [("x", ⟨[1], DType.float32, none⟩)] ∧
    (⟨OpKind.identity "ParseExample:0", "x", true⟩ : OpNode) ∈ graphOps ∧
    (⟨OpKind.add "Mul:0" "b:0", "y", true⟩ : OpNode) ∈ graphOps ∧
    (List.lookup "input" signature_def.inputs).map TensorInfo.name =
      some "tf_example:0" ∧
    (List.lookup "output" signature_def.outputs).map TensorInfo.name =
      some "Identity:0" ∧
    (⟨OpKind.identity "y:0", "Identity", false⟩ : OpNode) ∈ graphOps :=
  ⟨rfl, rfl, rfl, by decide, by decide, rfl, rfl, by decide⟩

/-- C5: the script constructs exactly five explicitly named operations (a,
b, tf_example, x and y), performs exactly one session run per export, and
calls exactly the two builder library methods per export. -/
theorem C5_counts (as_text : Bool) :
    (graphOps.filter (fun op => op.explicitName)).length = 5 ∧
    ((exportEvents as_text).filter Event.isSessionRun).length = 1 ∧
    ((exportEvents as_text).filter Event.isBuilderMethod).length = 2 :=
  ⟨rfl, rfl, rfl⟩

/-- C6: in every export the steps occur in the order session open, parameter
and placeholder declarations, feature decode, affine transform, signature
build, variable initialization, add-meta-graph-and-variables, save. -/
theorem C6_step_order (as_text : Bool) :
    (exportEvents as_text).indexOf Event.sessionOpen <
      (exportEvents as_text).indexOf (Event.constructOp "a") ∧
    (exportEvents as_text).indexOf (Event.constructOp "a") <
      (exportEvents as_text).indexOf (Event.constructOp "ParseExample") ∧
    (exportEvents as_text).indexOf (Event.constructOp "b") <
      (exportEvents as_text).indexOf (Event.constructOp "ParseExample") ∧
    (exportEvents as_text).indexOf (Event.constructOp "tf_example") <
      (exportEvents as_text).indexOf (Event.constructOp "ParseExample") ∧
    (exportEvents as_text).indexOf (Event.constructOp "ParseExample") <
      (exportEvents as_text).indexOf (Event.constructOp "y") ∧
    (exportEvents as_text).indexOf (Event.constructOp "y") <
      (exportEvents as_text).indexOf Event.buildSignatureDef ∧
    (exportEvents as_text).indexOf Event.buildSignatureDef <
      (exportEvents as_text).indexOf (Event.sessionRun "init") ∧
    (exportEvents as_text).indexOf (Event.sessionRun "init") <
      (exportEvents as_text).indexOf Event.addMetaGraphAndVariables ∧
    (exportEvents as_text).indexOf Event.addMetaGraphAndVariables <
      (exportEvents as_text).indexOf (Event.builderSave as_text) := by
  cases as_text <;> exact ⟨by decide, by decide, by decide, by decide, by decide,
    by decide, by decide, by decide, by decide⟩

/-- C7: one session scope per export, opened before all graph construction
and closed last; exactly one session run occurs, inside the scope, and every
session-using event lies strictly between open and close. -/
theorem C7_session_scope (as_text : Bool) :
    ((exportEvents as_text).filter
      (fun e => e = Event.sessionOpen)).length = 1 ∧
    ((exportEvents as_text).filter
      (fun e => e = Event.sessionClose)).length = 1 ∧
    ((exportEvents as_text).filter Event.isSessionRun).length = 1 ∧
    (exportEvents as_text).indexOf Event.sessionOpen <
      (exportEvents as_text).indexOf (Event.sessionRun "init") ∧
    (exportEvents as_text).indexOf (Event.sessionRun "init") <
      (exportEvents as_text).indexOf Event.sessionClose ∧
    ((exportEvents as_text).all (fun e =>
      !(Event.usesSession e || Event.isConstruct e) ||
        (decide ((exportEvents as_text).indexOf Event.sessionOpen <
            (exportEvents as_text).indexOf e) &&
         decide ((exportEvents as_text).indexOf e <
            (exportEvents as_text).indexOf Event.sessionClose)))) = true ∧
    (exportEvents as_text).indexOf Event.sessionClose =
      (exportEvents as_text).length - 1 := by
  cases as_text <;> exact ⟨rfl, rfl, rfl, by decide, by decide, by decide, by decide⟩

/-- C8: the export performs no error handling of its own: an error raised by
any framework primitive propagates unchanged as the outcome, later
primitives are not attempted, and no primitive is called twice. -/
theorem C8_error_propagation {ε : Type} (fw : Framework ε) (e : ε) :
    (fw.constructGraph = Except.error e →
      exportSteps fw = ([FwCall.constructGraph], Except.error e)) ∧
    (fw.constructGraph = Except.ok () → fw.runInitialization = Except.error e →
      exportSteps fw = ([FwCall.constructGraph, FwCall.runInitialization],
        Except.error e)) ∧
    (fw.constructGraph = Except.ok () → fw.runInitialization = Except.ok () →
      fw.addMetaGraphAndVariables = Except.error e →
      exportSteps fw = ([FwCall.constructGraph, FwCall.runInitialization,
        FwCall.addMetaGraphAndVariables], Except.error e)) ∧
    (fw.constructGraph = Except.ok () → fw.runInitialization = Except.ok () →
      fw.addMetaGraphAndVariables = Except.ok () → fw.save = Except.error e →
      exportSteps fw = ([FwCall.constructGraph, FwCall.runInitialization,
        FwCall.addMetaGraphAndVariables, FwCall.save], Except.error e)) ∧
    (exportSteps fw).1.Nodup := by
  refine ⟨fun h1 => by simp [exportSteps, h1],
          fun h1 h2 => by simp [exportSteps, h1, h2],
          fun h1 h2 h3 => by simp [exportSteps, h1, h2, h3],
          fun h1 h2 h3 h4 => by simp [exportSteps, h1, h2, h3, h4], ?_⟩
  unfold exportSteps
  cases fw.constructGraph <;> cases fw.runInitialization <;>
    cases fw.addMetaGraphAndVariables <;> cases fw.save <;> simp

/-- C8 witness: a framework whose save raises "unwritable directory" makes
the export fail with exactly that error after attempting each primitive
once. -/
theorem C8_error_propagation_witness :
    failingSaveFramework.constructGraph = Except.ok () ∧
    failingSaveFramework.runInitialization = Except.ok () ∧
    failingSaveFramework.addMetaGraphAndVariables = Except.ok () ∧
    failingSaveFramework.save = Except.error "unwritable directory" ∧
    exportSteps failingSaveFramework =
      ([FwCall.constructGraph, FwCall.runInitialization,
        FwCall.addMetaGraphAndVariables, FwCall.save],
       Except.error "unwritable directory") :=
  ⟨rfl, rfl, rfl, rfl,
   (C8_error_propagation failingSaveFramework "unwritable directory").2.2.2.1
     rfl rfl rfl rfl⟩

/-- C9: the signature's "output" entry names the anonymous identity tensor
"Identity:0" applied to y, not "y:0"; and for every input value its computed
value equals the value of y. -/
theorem C9_output_identity (v : Rat) :
    (⟨OpKind.identity "y:0", "Identity", false⟩ : OpNode) ∈ graphOps ∧
    (List.lookup "output" signature_def.outputs).map TensorInfo.name =
      some "Identity:0" ∧
    "Identity:0" ≠ "y:0" ∧
    evalTensor [("x", [v])] "Identity:0" = evalTensor [("x", [v])] "y:0" :=
  ⟨by decide, by decide, by decide, rfl⟩

/-- C10: "x" is configured as a fixed-length feature of exactly one float32
value with no default, and parsing a record that lacks "x" or whose "x" does
not hold exactly one value fails with an error. -/
theorem C10_strict_feature_x (r : Record) (vals : List Rat) :
    xFeature.defaultValue = none ∧
    xFeature.shape = [1] ∧
    xFeature.dtype = DType.float32 ∧
    feature_configs = [("x", xFeature)] ∧
    (List.lookup "x" r = none →
      parseFeature "x" xFeature r = Except.error ("feature missing: " ++ "x")) ∧
    (List.lookup "x" r = some vals → vals.length ≠ 1 →
      parseFeature "x" xFeature r =
        Except.error ("feature has wrong length: " ++ "x")) := by
  refine ⟨rfl, rfl, rfl, rfl, fun h => by simp [parseFeature, xFeature, h],
          fun h hl => by simp [parseFeature, xFeature, h, hl]⟩

/-- C10 witness: the empty record lacks "x" and fails with the missing
feature error; a record whose "x" holds two values fails with the wrong
length error. -/
theorem C10_strict_feature_x_witness :
    List.lookup "x" ([] : Record) = none ∧
    parseFeature "x" xFeature [] = Except.error ("feature missing: " ++ "x") ∧
    List.lookup "x" ([("x", [1, 2])] : Record) = some [1, 2] ∧
    ([1, 2] : List Rat).length ≠ 1 ∧
    parseFeature "x" xFeature [("x", [1, 2])] =
      Except.error ("feature has wrong length: " ++ "x") :=
  ⟨rfl, (C10_strict_feature_x [] []).2.2.2.2.1 rfl, rfl, by decide,
   (C10_strict_feature_x [("x", [1, 2])] [1, 2]).2.2.2.2.2 rfl (by decide)⟩

end HalfPlusTwo
